import Mathlib

/-!
Verification development for the deepgram-twilio-bridge repository
(src/server.py, src/database.py, src/config.py).

The per-call handler `websocket_handler` in src/server.py runs three loops:
`twilio_receiver` (telephony socket inbound), `sts_sender` (agent outbound)
and `sts_receiver` (agent inbound).  The definitions below are a shallow
embedding of those loops: byte strings become `List Nat`, the per-call
mutable variables (`inbuffer`, `audio_queue`, `streamsid_queue`,
`caller_phone`, `call_sid`, `caller_info_ready`, `inactive_clients`,
broadcasts) become fields of an explicit state record, and each iteration
of a receive loop becomes a step function applied to one decoded frame.
-/

namespace Bridge

/-- Decoded view of one inbound telephony websocket frame, mirroring the
dictionary shapes `twilio_receiver` (src/server.py lines 957-1051)
inspects after `json.loads`.  `malformedText` stands for a TEXT frame that
is not valid JSON (the `json.JSONDecodeError` branch, line 1044);
`otherEvent` stands for a frame that is valid JSON but matches none of the
`start`/`media`/`stop` branches or raises a key error inside them (the
generic `except Exception` branch, line 1046).  `start` carries
`streamSid`, `callSid` and the `customParameters` dictionary (absent
parameters are the empty list, matching `start.get("customParameters", {})`);
`media` carries the already base64-decoded payload bytes. -/
inductive TwilioFrame where
  | start (streamSid : String) (callSid : String) (customParams : List (String × String))
  | media (payload : List Nat)
  | stop
  | malformedText
  | otherEvent
  deriving DecidableEq, Repr

/-- One observable action of the session-end (finalization) code paths of
src/server.py: appending a summary entry to the global `inactive_clients`
list (line 1016 / 1245, recorded here by the id it stores), broadcasting
`call_ended` (line 1032 / 1259), broadcasting the updated inactive list
(line 1038 / 1264), and a call to `db.end_session` of src/database.py
(which no code path of server.py performs). -/
inductive EndAction where
  | inactiveAppend (id : String)
  | broadcastCallEnded
  | broadcastInactiveList
  | dbEndSession
  deriving DecidableEq, Repr

/-- Per-call state of `websocket_handler` / `twilio_receiver`
(src/server.py lines 937-954, 14-20): the nonlocal variables
`caller_phone` and `call_sid` (None until set from customParameters,
line 974-975), the one-shot `caller_info_ready` event (line 946, `true`
once `.set()` was called), the local `inbuffer` accumulator (line 954),
the contents of `audio_queue` (line 938) and `streamsid_queue` (line 939)
in put order, the ids stored in the `inactive_clients` entries this call
appended (line 1017: the last 8 characters of `call_sid`), and the list of
finalization actions performed so far. -/
structure SessState where
  callerPhone : Option String := none
  callSid : Option String := none
  callerInfoReady : Bool := false
  inbuffer : List Nat := []
  audioQueue : List (List Nat) := []
  streamsidQueue : List String := []
  inactiveIds : List String := []
  endActions : List EndAction := []
  deriving DecidableEq, Repr

/-- The fresh state at the start of `websocket_handler` (lines 937-946). -/
def initState : SessState := {}

/-- Python `s[-8:]`: the last eight characters of a string (the whole
string when shorter), as used at src/server.py line 1017 and 1246 to build
the `id` field of an `inactive_clients` entry. -/
def last8 (s : String) : String :=
  String.mk (s.toList.drop (s.toList.length - 8))

/-- The buffer threshold `BUFFER_SIZE = 20 * 160` of src/server.py
line 953. -/
def BUFFER_SIZE : Nat := 20 * 160

/-- The `stop` branch of `twilio_receiver` (src/server.py lines 999-1041):
flush the remaining `inbuffer` to `audio_queue` if non-empty (lines
1002-1003; note the source does not clear `inbuffer` here), then, if
`call_sid` is truthy, append an `inactive_clients` entry whose id is the
last 8 characters of `call_sid` (line 1017), remove the active session and
broadcast `call_ended` and the inactive list (lines 1028-1041). -/
def stopStep (st : SessState) : SessState :=
  let st1 := if st.inbuffer ≠ [] then
      { st with audioQueue := st.audioQueue ++ [st.inbuffer] }
    else st
  match st.callSid with
  | none => st1
  | some c =>
      if c = "" then st1
      else
        { st1 with
          inactiveIds := st1.inactiveIds ++ [last8 c],
          endActions := st1.endActions ++
            [EndAction.inactiveAppend (last8 c),
             EndAction.broadcastCallEnded,
             EndAction.broadcastInactiveList] }

/-- One iteration of the `twilio_receiver` loop (src/server.py lines
957-1047) on one decoded frame.

`start` (lines 965-987): when `customParameters` is non-empty, set
`caller_phone := custom_params.get("caller", "unknown")`,
`call_sid := custom_params.get("callsid", actual_call_sid)` and fire the
one-shot `caller_info_ready` event (line 979); in every case put
`streamSid` on `streamsid_queue` (line 986).

`media` (lines 989-997): extend `inbuffer` with the payload; if the length
reaches `BUFFER_SIZE`, put the ENTIRE buffer on `audio_queue` and clear it.

`stop`: see `stopStep`.  Malformed or unrecognized frames are swallowed by
the `except` clauses at lines 1044-1047 and change nothing. -/
def twilioStep (st : SessState) : TwilioFrame → SessState
  | .start sid csid params =>
      let st1 :=
        if params ≠ [] then
          { st with
            callerPhone := some (((params.lookup "caller").getD "unknown")),
            callSid := some (((params.lookup "callsid").getD csid)),
            callerInfoReady := true }
        else st
      { st1 with streamsidQueue := st1.streamsidQueue ++ [sid] }
  | .media payload =>
      let buf := st.inbuffer ++ payload
      if BUFFER_SIZE ≤ buf.length then
        { st with audioQueue := st.audioQueue ++ [buf], inbuffer := [] }
      else
        { st with inbuffer := buf }
  | .stop => stopStep st
  | .malformedText => st
  | .otherEvent => st

/-- The `twilio_receiver` loop over a whole sequence of inbound frames. -/
def runFrames (st : SessState) (frames : List TwilioFrame) : SessState :=
  frames.foldl twilioStep st

/-- The fallback finalization block of `websocket_handler` after
`asyncio.gather` returns (src/server.py lines 1234-1267): if `call_sid` is
truthy and no `inactive_clients` entry has `id` equal to the FULL
`call_sid` (line 1237 — note the stop branch stored only the last 8
characters), append a second entry and broadcast `call_ended` and the
inactive list again. -/
def fallbackFinalize (st : SessState) : SessState :=
  match st.callSid with
  | none => st
  | some c =>
      if c = "" then st
      else if st.inactiveIds.any (fun i => i = c) then st
      else
        { st with
          inactiveIds := st.inactiveIds ++ [last8 c],
          endActions := st.endActions ++
            [EndAction.inactiveAppend (last8 c),
             EndAction.broadcastCallEnded,
             EndAction.broadcastInactiveList] }

/-- The whole per-call handler on a trace of telephony frames: run the
receive loop, then the post-`gather` fallback finalization. -/
def runHandler (frames : List TwilioFrame) : SessState :=
  fallbackFinalize (runFrames initState frames)

/-- Whether a frame is a `start` frame carrying a non-empty
`customParameters` dictionary — the one and only condition under which
src/server.py calls `caller_info_ready.set()` (lines 973-979). -/
def isStartWithParams : TwilioFrame → Bool
  | .start _ _ params => params ≠ []
  | _ => false

/-- The readiness event after a trace of frames. -/
def callerInfoReadyAfter (frames : List TwilioFrame) : Bool :=
  (runFrames initState frames).callerInfoReady

/-- The `await caller_info_ready.wait()` at src/server.py line 1060 has no
timeout, so `websocket_handler` proceeds past it (to context loading and
agent-connection setup, lines 1062-1101) exactly when the event was set by
the frames the receiver processed; otherwise the await never returns. -/
def handlerProceedsPastWait (frames : List TwilioFrame) : Bool :=
  callerInfoReadyAfter frames

/-- Decoded view of one textual message from the agent endpoint, mirroring
what `sts_receiver` (src/server.py lines 1170-1211) sees after
`json.loads`.  `invalidJson` is a message that is not valid JSON (the
`json.JSONDecodeError` branch, line 1210).  `missingType` is a message
that IS valid JSON but carries no usable `type` discriminator: a JSON
value that is not an object (so `decoded.get(...)` at line 1176 raises
`AttributeError`) or an object without a `"type"` key (so
`decoded["type"]` at line 1203 raises `KeyError`); neither error is
caught by the inner `except json.JSONDecodeError`, so it propagates to
the outer `except Exception` at line 1223 and ends the loop.
`conversationText` and `userStartedSpeaking` are objects whose `type`
field holds those strings; `otherType` is an object with any other
`type` value. -/
inductive AgentJson where
  | invalidJson
  | missingType
  | conversationText (role : Option String) (content : Option String)
  | userStartedSpeaking
  | otherType (t : String)
  deriving DecidableEq, Repr

/-- One message on the agent websocket: textual JSON control or binary
synthesized audio (src/server.py lines 1170 and 1215). -/
inductive AgentMsg where
  | text (j : AgentJson)
  | binary (audio : List Nat)
  deriving DecidableEq, Repr

/-- One frame sent back to the telephony socket by `sts_receiver`: the
barge-in `clear` message (lines 1205-1209) or a playback `media` message
wrapping synthesized audio (lines 1216-1221), both addressed to the
session's `streamSid`. -/
inductive TwilioOut where
  | clear (streamSid : String)
  | media (streamSid : String) (audio : List Nat)
  deriving DecidableEq, Repr

/-- One iteration of the `sts_receiver` loop on one agent message, after
the loop has obtained `streamsid` from `streamsid_queue` (line 1163).
Returns the telephony frames sent for this message, or `none` when the
message raises an uncaught error that terminates the loop (see
`AgentJson.missingType`).  A `ConversationText` message is stored in the
database and broadcast to dashboards (lines 1176-1200) but sends nothing
to the telephony socket; a `UserStartedSpeaking` message sends exactly one
`clear` frame (lines 1203-1209); a binary message sends exactly one
`media` frame (lines 1215-1221). -/
def stsStep (streamsid : String) : AgentMsg → Option (List TwilioOut)
  | .text .invalidJson => some []
  | .text .missingType => none
  | .text (.conversationText _ _) => some []
  | .text .userStartedSpeaking => some [TwilioOut.clear streamsid]
  | .text (.otherType _) => some []
  | .binary audio => some [TwilioOut.media streamsid audio]

/-- The `sts_receiver` loop over a sequence of agent messages: the
telephony frames sent, in order, and whether the loop was terminated early
by an uncaught per-message error. -/
def stsRun (streamsid : String) : List AgentMsg → List TwilioOut × Bool
  | [] => ([], false)
  | m :: ms =>
      match stsStep streamsid m with
      | none => ([], true)
      | some out =>
          let rest := stsRun streamsid ms
          (out ++ rest.1, rest.2)

/-- `sts_connect` (src/server.py lines 35-45): reads `DEEPGRAM_API_KEY`
from the environment; raises `ValueError` when it is unset, otherwise
opens the websocket with subprotocols `["token", api_key]`.  Modelled as
`Except` over the optional environment value, returning the url and
subprotocol list. -/
def sts_connect (apiKey : Option String) : Except String (String × List String) :=
  match apiKey with
  | none => Except.error "DEEPGRAM_API_KEY environment variable is not set"
  | some key =>
      Except.ok ("wss://agent.deepgram.com/v1/agent/converse", ["token", key])

/-- What `main` (src/server.py lines 1353-1415) does at startup with
respect to the agent credential: lines 1366-1370 only print a warning when
`DEEPGRAM_API_KEY` is absent and an acknowledgement otherwise, and
`run_server` is started unconditionally in both cases — no branch of
`main` aborts startup on a missing key. -/
structure StartupOutcome where
  warnedMissingKey : Bool
  serverStarted : Bool
  deriving DecidableEq, Repr

/-- The startup behavior of `main` as a function of the optional
`DEEPGRAM_API_KEY` environment value (src/server.py lines 1366-1406). -/
def mainStartup (apiKey : Option String) : StartupOutcome :=
  { warnedMissingKey := apiKey.isNone, serverStarted := true }

/-- The terminal-write helper `end_session` of src/database.py lines
175-212: builds the full transcript from the stored messages (speaker,
content, timestamp triples, in timestamp order), computes
`duration = int((now - start_time).total_seconds())` and updates the
session row with `end_time = NOW()`, the duration, the transcript and the
optional summary.  Times are modelled as integer second counts. -/
structure SessionUpdate where
  end_time_set : Bool
  duration_seconds : Int
  full_transcript : List (String × String × Int)
  summary : Option String
  deriving DecidableEq, Repr

/-- Model of `LogosDatabase.end_session` (src/database.py lines 175-212). -/
def end_session (now start_time : Int)
    (messages : List (String × String × Int)) (summary : Option String) :
    SessionUpdate :=
  { end_time_set := true,
    duration_seconds := now - start_time,
    full_transcript := messages,
    summary := summary }

/-- A Python/JSON value, as handled dynamically by
`format_actual_conversation_context` (src/server.py lines 119-200): the
stored `full_transcript` of a session row is an arbitrary JSONB value and
may be a string, a list, a dict, a number, a boolean or null. -/
inductive PyVal where
  | pystr (s : String)
  | pyint (n : Int)
  | pybool (b : Bool)
  | pynone
  | pylist (xs : List PyVal)
  | pydict (fields : List (String × PyVal))

/-- Python `v == s` where `s` is a string literal: true exactly when `v`
is that string (values of other types compare unequal without raising),
as in the `speaker == 'user'` and `speaker == 'ai'` tests at
src/server.py lines 170 and 173. -/
def pyEqStr : PyVal → String → Bool
  | .pystr t, s => t == s
  | _, _ => false

mutual

/-- Python `str(...)` on a value, used by the normalization step at
src/server.py line 151 (`"content": str(item)`).  Rendering of values
nested in containers approximates Python repr (no quoting of nested
strings); no theorem below depends on the rendered text. -/
def pyStr : PyVal → String
  | .pystr s => s
  | .pyint n => toString n
  | .pybool b => if b then "True" else "False"
  | .pynone => "None"
  | .pylist xs => "[" ++ String.intercalate ", " (pyStrList xs) ++ "]"
  | .pydict fs => "\x7b" ++ String.intercalate ", " (pyStrFields fs) ++ "\x7d"

/-- Renders each element of a Python list. -/
def pyStrList : List PyVal → List String
  | [] => []
  | v :: vs => pyStr v :: pyStrList vs

/-- Renders each entry of a Python dict. -/
def pyStrFields : List (String × PyVal) → List String
  | [] => []
  | (k, v) :: fs => (k ++ ": " ++ pyStr v) :: pyStrFields fs

end

/-- Python `for item in x`: lists yield their items, dicts yield their
keys, strings yield their one-character substrings, and every other value
raises `TypeError` — which is exactly what line 146 of src/server.py does
with a transcript that is `None`, a number or a boolean, since the
function has no handler for it. -/
def pyIterate : PyVal → Except String (List PyVal)
  | .pylist xs => Except.ok xs
  | .pydict fs => Except.ok (fs.map fun kv => PyVal.pystr kv.1)
  | .pystr s => Except.ok (s.toList.map fun c => PyVal.pystr (String.mk [c]))
  | _ => Except.error "TypeError: object is not iterable"

/-- Character-list prefix test used to model Python `str.startswith`. -/
def startsWithChars : List Char → List Char → Bool
  | _, [] => true
  | [], _ :: _ => false
  | c :: cs, d :: ds => c == d && startsWithChars cs ds

/-- Character-list substring test used to model Python `needle in hay`. -/
def containsChars : List Char → List Char → Bool
  | [], needle => needle.isEmpty
  | c :: cs, needle => startsWithChars (c :: cs) needle || containsChars cs needle

/-- Python `needle in hay` on strings (src/server.py line 174). -/
def strContains (hay needle : String) : Bool :=
  containsChars hay.toList needle.toList

/-- The stoplist of generic openers at src/server.py line 168. -/
def genericOpeners : List String :=
  ["Hello!", "Hi!", "Hey!", "Yes,", "Nice!", "Got it!", "Oh,", "Okay!", "Sure!"]

/-- Python `content.startswith((...openers...))` (src/server.py line 167). -/
def isGenericOpener (content : String) : Bool :=
  genericOpeners.any fun o => startsWithChars content.toList o.toList

/-- The dict-or-messages selection at src/server.py lines 133-137: a
decoded dict with a `"messages"` key contributes that value, any other
decoded value is used as the transcript itself. -/
def selectMessages : PyVal → PyVal
  | .pydict fs =>
      match fs.lookup "messages" with
      | some v => v
      | none => .pydict fs
  | v => v

/-- Step 1 of `format_actual_conversation_context` (src/server.py lines
129-142), parameterized by `loads`, the behavior of `json.loads` on the
stored strings (`none` models `json.JSONDecodeError`): a string transcript
is decoded, falling back to a single opaque user turn holding the raw
string when undecodable; a non-string transcript is left alone. -/
def transcriptStep1 (loads : String → Option PyVal) : PyVal → PyVal
  | .pystr s =>
      match loads s with
      | some d => selectMessages d
      | none => .pylist [.pydict [("content", .pystr s), ("speaker", .pystr "user")]]
  | v => v

/-- Step 2 of `format_actual_conversation_context` (src/server.py lines
144-154): dict items are kept, any other item becomes
`\x7b"content": str(item), "speaker": "user"\x7d`. -/
def normalizeItem : PyVal → PyVal
  | .pydict fs => .pydict fs
  | v => .pydict [("content", .pystr (pyStr v)), ("speaker", .pystr "user")]

/-- The per-message body of the loop at src/server.py lines 160-178:
`content = msg.get('content', '').strip()` raises `AttributeError` when
the `content` value is present but not a string (uncaught in the
function); messages whose stripped content is longer than 15 characters
and does not start with a generic opener contribute a
`User said: "..."` line when the speaker is `user`; `ai` messages that
match the memory-claim keywords are skipped explicitly, and every other
message contributes nothing. -/
def exchangeOf : PyVal → Except String (Option String)
  | .pydict fs =>
      match (fs.lookup "content").getD (PyVal.pystr "") with
      | .pystr s =>
          let content := s.trim
          let speakerVal := (fs.lookup "speaker").getD (PyVal.pystr "")
          if 15 < content.length && !(isGenericOpener content) then
            if pyEqStr speakerVal "user" then
              Except.ok (some ("User said: \"" ++ content ++ "\""))
            else if pyEqStr speakerVal "ai" &&
                (strContains content "mentioned" || strContains content "talked about" ||
                 strContains content "remember") then
              Except.ok none
            else
              Except.ok none
          else
            Except.ok none
      | _ => Except.error "AttributeError: strip on non-string content"
  | _ => Except.error "AttributeError: get on non-dict message"

/-- The `key_exchanges` accumulation over the normalized messages
(src/server.py lines 159-178), in order. -/
def collectExchanges : List PyVal → Except String (List String)
  | [] => Except.ok []
  | m :: ms =>
      match exchangeOf m with
      | .error e => .error e
      | .ok e =>
          match collectExchanges ms with
          | .error e2 => .error e2
          | .ok rest =>
              match e with
              | some s => Except.ok (s :: rest)
              | none => Except.ok rest

/-- Python `l[-n:]`. -/
def lastN (n : Nat) (l : List α) : List α :=
  l.drop (l.length - n)

/-- Processing of one stored session row by
`format_actual_conversation_context` (src/server.py lines 125-186),
returning the `session_summary` appended to `context_parts` (or `none`
when the session contributes nothing).  The row is the Python dict of the
session record; `session_number` defaults to `'Unknown'` and
`full_transcript` to `[]` exactly as the two `.get` calls do. -/
def processSession (loads : String → Option PyVal)
    (session_data : List (String × PyVal)) : Except String (Option String) :=
  let session_num := (session_data.lookup "session_number").getD (PyVal.pystr "Unknown")
  let transcript0 := (session_data.lookup "full_transcript").getD (PyVal.pylist [])
  match pyIterate (transcriptStep1 loads transcript0) with
  | .error e => .error e
  | .ok items =>
      let normalized := items.map normalizeItem
      if normalized.isEmpty then
        Except.ok none
      else
        match collectExchanges normalized with
        | .error e => .error e
        | .ok exchanges =>
            if exchanges.isEmpty then
              Except.ok none
            else
              Except.ok (some ("Session " ++ pyStr session_num ++ ": " ++
                String.intercalate " | " (lastN 6 exchanges)))

/-- The `context_parts` accumulation over the processed sessions
(src/server.py lines 123-186). -/
def buildParts (loads : String → Option PyVal) :
    List (List (String × PyVal)) → Except String (List String)
  | [] => Except.ok []
  | s :: rest =>
      match processSession loads s with
      | .error e => .error e
      | .ok part =>
          match buildParts loads rest with
          | .error e2 => .error e2
          | .ok others =>
              match part with
              | some p => Except.ok (p :: others)
              | none => Except.ok others

/-- `format_actual_conversation_context` (src/server.py lines 119-200):
process the last three stored sessions and render the digest block, or
return the empty string when nothing meaningful was found.  An uncaught
Python exception is the `Except.error` case. -/
def format_actual_conversation_context (loads : String → Option PyVal)
    (recent_sessions : List (List (String × PyVal))) : Except String String :=
  match buildParts loads (lastN 3 recent_sessions) with
  | .error e => .error e
  | .ok parts =>
    if parts.isEmpty then
      Except.ok ""
    else
      Except.ok ("\nACTUAL CONVERSATION HISTORY:\n" ++
      String.intercalate "\n" parts ++
      "\n\nIMPORTANT: Only reference what the user actually said above. Do NOT make up details about hobbies, goals, or activities they never mentioned. If you are not sure about something from previous conversations, ask them to remind you rather than guessing.")

/-- Whether an `Except` computation completed without raising. -/
def exceptOk : Except String α → Bool
  | .ok _ => true
  | .error _ => false

/-- A transcript item the per-message loop can process without raising: a
dict whose `content` value, if present, is a string, or any non-dict item
(which normalization wraps with a string content). -/
def goodItem : PyVal → Bool
  | .pydict fs =>
      match fs.lookup "content" with
      | some (.pystr _) => true
      | some _ => false
      | none => true
  | _ => true

/-- A post-decode transcript value Python can iterate without raising and
whose items are all `goodItem`: a list of good items, a dict (iterated as
string keys) or a string (iterated as characters). -/
def goodIterable : PyVal → Bool
  | .pylist xs => xs.all goodItem
  | .pydict _ => true
  | .pystr _ => true
  | _ => false

/-- A stored transcript value on which `format_actual_conversation_context`
does not raise, given the behavior `loads` of `json.loads`: a string that
fails to decode (handled by the fallback) or decodes to a good iterable,
or directly a good iterable. -/
def goodTranscript (loads : String → Option PyVal) : PyVal → Bool
  | .pystr s =>
      match loads s with
      | none => true
      | some d => goodIterable (selectMessages d)
  | v => goodIterable v

/-- A stored session row whose transcript is good. -/
def goodSession (loads : String → Option PyVal)
    (session_data : List (String × PyVal)) : Bool :=
  goodTranscript loads ((session_data.lookup "full_transcript").getD (PyVal.pylist []))

/-! ### Helper lemmas about the telephony receiver -/

theorem runFrames_append (st : SessState) (a b : List TwilioFrame) :
    runFrames st (a ++ b) = runFrames (runFrames st a) b := by
  simp [runFrames, List.foldl_append]

theorem twilioStep_media (st : SessState) (p : List Nat) :
    twilioStep st (TwilioFrame.media p) =
      if BUFFER_SIZE ≤ st.inbuffer.length + p.length then
        { st with audioQueue := st.audioQueue ++ [st.inbuffer ++ p], inbuffer := [] }
      else
        { st with inbuffer := st.inbuffer ++ p } := by
  simp [twilioStep, List.length_append]

theorem twilioStep_media_emit (st : SessState) (p : List Nat)
    (h : BUFFER_SIZE ≤ st.inbuffer.length + p.length) :
    twilioStep st (TwilioFrame.media p) =
      { st with audioQueue := st.audioQueue ++ [st.inbuffer ++ p], inbuffer := [] } := by
  rw [twilioStep_media, if_pos h]

theorem mediaStep_bytes (st : SessState) (p : List Nat) :
    (twilioStep st (TwilioFrame.media p)).audioQueue.flatten
      ++ (twilioStep st (TwilioFrame.media p)).inbuffer
      = st.audioQueue.flatten ++ st.inbuffer ++ p := by
  rw [twilioStep_media]
  split <;> simp

theorem mediaStep_callSid (st : SessState) (p : List Nat) :
    (twilioStep st (TwilioFrame.media p)).callSid = st.callSid := by
  rw [twilioStep_media]
  split <;> rfl

theorem runMedias_bytes (ps : List (List Nat)) (st : SessState) :
    (runFrames st (ps.map TwilioFrame.media)).audioQueue.flatten
      ++ (runFrames st (ps.map TwilioFrame.media)).inbuffer
      = st.audioQueue.flatten ++ st.inbuffer ++ ps.flatten := by
  induction ps generalizing st with
  | nil => simp [runFrames]
  | cons p ps ih =>
      have hstep : runFrames st ((p :: ps).map TwilioFrame.media)
          = runFrames (twilioStep st (TwilioFrame.media p)) (ps.map TwilioFrame.media) := by
        simp [runFrames]
      rw [hstep, ih, mediaStep_bytes]
      simp

theorem runMedias_callSid (ps : List (List Nat)) (st : SessState) :
    (runFrames st (ps.map TwilioFrame.media)).callSid = st.callSid := by
  induction ps generalizing st with
  | nil => simp [runFrames]
  | cons p ps ih =>
      have hstep : runFrames st ((p :: ps).map TwilioFrame.media)
          = runFrames (twilioStep st (TwilioFrame.media p)) (ps.map TwilioFrame.media) := by
        simp [runFrames]
      rw [hstep, ih, mediaStep_callSid]

theorem stopStep_flatten_of_no_sid (st : SessState) (h : st.callSid = none) :
    (stopStep st).audioQueue.flatten = st.audioQueue.flatten ++ st.inbuffer := by
  simp only [stopStep, h]
  split <;> simp_all

theorem runMedias_small (k : Nat) (st : SessState)
    (h : st.inbuffer.length + 160 * k < BUFFER_SIZE) :
    runFrames st (List.replicate k (TwilioFrame.media (List.replicate 160 (0 : Nat))))
      = { st with inbuffer := st.inbuffer ++ List.replicate (160 * k) 0 } := by
  induction k generalizing st with
  | zero => simp [runFrames]
  | succ k ih =>
      rw [List.replicate_succ]
      have hstep : runFrames st
            (TwilioFrame.media (List.replicate 160 (0 : Nat))
              :: List.replicate k (TwilioFrame.media (List.replicate 160 (0 : Nat))))
          = runFrames (twilioStep st (TwilioFrame.media (List.replicate 160 0)))
              (List.replicate k (TwilioFrame.media (List.replicate 160 0))) := by
        simp [runFrames]
      have hcond : ¬ BUFFER_SIZE ≤ st.inbuffer.length + (List.replicate 160 (0 : Nat)).length := by
        simp only [List.length_replicate, BUFFER_SIZE] at h ⊢
        omega
      have h' : ({ st with inbuffer := st.inbuffer ++ List.replicate 160 (0 : Nat) } :
            SessState).inbuffer.length + 160 * k < BUFFER_SIZE := by
        simp only [List.length_append, List.length_replicate]
        simp only [BUFFER_SIZE] at h ⊢
        omega
      rw [hstep, twilioStep_media, if_neg hcond, ih _ h']
      have hrep : 160 * (k + 1) = 160 + 160 * k := by ring
      rw [hrep, List.replicate_add]
      simp [List.append_assoc]

theorem run25_audio :
    (runFrames initState
        (List.replicate 25 (TwilioFrame.media (List.replicate 160 (0 : Nat))))).audioQueue.map
          List.length = [3200]
    ∧ (runFrames initState
        (List.replicate 25 (TwilioFrame.media (List.replicate 160 (0 : Nat))))).inbuffer.length
          = 800 := by
  have e1 : List.replicate 25 (TwilioFrame.media (List.replicate 160 (0 : Nat)))
      = (List.replicate 19 (TwilioFrame.media (List.replicate 160 (0 : Nat)))
          ++ List.replicate 1 (TwilioFrame.media (List.replicate 160 (0 : Nat))))
        ++ List.replicate 5 (TwilioFrame.media (List.replicate 160 (0 : Nat))) := by
    rw [← List.replicate_add, ← List.replicate_add]
  rw [e1, runFrames_append, runFrames_append,
      runMedias_small 19 initState (by
        simp only [initState, List.length_nil]
        norm_num [BUFFER_SIZE])]
  rw [show List.replicate 1 (TwilioFrame.media (List.replicate 160 (0 : Nat)))
        = [TwilioFrame.media (List.replicate 160 0)] from rfl]
  rw [show ∀ st : SessState, runFrames st [TwilioFrame.media (List.replicate 160 (0 : Nat))]
        = twilioStep st (TwilioFrame.media (List.replicate 160 0)) from fun _ => rfl]
  rw [twilioStep_media_emit _ _ (by
        simp only [initState, List.length_append, List.length_replicate, List.length_nil,
          List.nil_append]
        norm_num [BUFFER_SIZE])]
  rw [runMedias_small 5 _ (by
        simp only [List.length_nil]
        norm_num [BUFFER_SIZE])]
  constructor
  · simp only [initState, List.nil_append, List.map_cons, List.map_nil, List.length_append,
      List.length_replicate, List.length_nil]
  · simp only [initState, List.nil_append, List.length_append, List.length_replicate,
      List.length_nil]

theorem stepReady (st : SessState) (f : TwilioFrame) :
    (twilioStep st f).callerInfoReady = (st.callerInfoReady || isStartWithParams f) := by
  cases f with
  | start sid csid params =>
      by_cases hp : params = [] <;> simp [twilioStep, isStartWithParams, hp]
  | media p =>
      rw [twilioStep_media]
      split <;> simp [isStartWithParams]
  | stop =>
      simp only [isStartWithParams, Bool.or_false, twilioStep, stopStep]
      repeat' split
      all_goals rfl
  | malformedText => simp [twilioStep, isStartWithParams]
  | otherEvent => simp [twilioStep, isStartWithParams]

theorem runFrames_ready (fs : List TwilioFrame) (st : SessState) :
    (runFrames st fs).callerInfoReady = (st.callerInfoReady || fs.any isStartWithParams) := by
  induction fs generalizing st with
  | nil => simp [runFrames]
  | cons f fs ih =>
      have hstep : runFrames st (f :: fs) = runFrames (twilioStep st f) fs := by
        simp [runFrames]
      rw [hstep, ih, stepReady]
      simp [Bool.or_assoc]

theorem stsRun_decomp (sid : String) (pre post : List AgentMsg)
    (h : (stsRun sid pre).2 = false) :
    stsRun sid (pre ++ AgentMsg.text AgentJson.userStartedSpeaking :: post)
      = ((stsRun sid pre).1 ++ TwilioOut.clear sid :: (stsRun sid post).1,
          (stsRun sid post).2) := by
  induction pre with
  | nil => simp [stsRun, stsStep]
  | cons m ms ih =>
      cases hstep : stsStep sid m with
      | none => simp [stsRun, hstep] at h
      | some out =>
          have h' : (stsRun sid ms).2 = false := by simpa [stsRun, hstep] using h
          simp [stsRun, hstep, ih h', List.append_assoc]

/-! ### Claim theorems -/

/-- C1: for every sequence of inbound media payloads appended by
`twilio_receiver` during a session that ends with a `stop` control frame,
the concatenation of all chunks ever put on the agent-outbound
`audio_queue` (including the final flush performed by the `stop` branch,
src/server.py lines 1002-1003) equals the concatenation of all appended
payload bytes, in arrival order — no byte duplicated, dropped or
reordered. -/
theorem C1_audio_bytes_preserved (payloads : List (List Nat)) :
    (runFrames initState
        (payloads.map TwilioFrame.media ++ [TwilioFrame.stop])).audioQueue.flatten
      = payloads.flatten := by
  rw [runFrames_append]
  rw [show ∀ st : SessState, runFrames st [TwilioFrame.stop] = twilioStep st TwilioFrame.stop
        from fun _ => rfl]
  rw [show ∀ st : SessState, twilioStep st TwilioFrame.stop = stopStep st from fun _ => rfl]
  rw [stopStep_flatten_of_no_sid _ (by rw [runMedias_callSid]; rfl)]
  have hb := runMedias_bytes payloads initState
  simpa [initState] using hb

/-- C5 counterexample: a single appended payload of 3201 bytes drives the
accumulator to 3201 ≥ 3200, and the code (src/server.py lines 995-997)
then emits the ENTIRE 3201-byte accumulator as one chunk and clears it —
not a chunk of exactly 3200 bytes with a 1-byte remainder retained, as the
claim states. -/
theorem C5_counterexample :
    (runFrames initState
        [TwilioFrame.media (List.replicate 3201 (0 : Nat))]).audioQueue.map List.length
      = [3201]
    ∧ ¬ (∀ c ∈ (runFrames initState
          [TwilioFrame.media (List.replicate 3201 (0 : Nat))]).audioQueue,
        c.length = BUFFER_SIZE) := by
  have h1 : runFrames initState [TwilioFrame.media (List.replicate 3201 (0 : Nat))]
      = { initState with
          audioQueue := initState.audioQueue ++ [initState.inbuffer ++ List.replicate 3201 0],
          inbuffer := [] } := by
    rw [show ∀ st : SessState, runFrames st [TwilioFrame.media (List.replicate 3201 (0 : Nat))]
          = twilioStep st (TwilioFrame.media (List.replicate 3201 0)) from fun _ => rfl]
    exact twilioStep_media_emit _ _ (by
      simp only [initState, List.length_nil, List.length_replicate]
      norm_num [BUFFER_SIZE])
  rw [h1]
  constructor
  · simp only [initState, List.nil_append, List.map_cons, List.map_nil, List.length_append,
      List.length_nil, List.length_replicate]
  · intro hall
    have hm := hall (List.replicate 3201 0)
      (by simp only [initState, List.nil_append, List.mem_singleton])
    simp only [List.length_replicate, BUFFER_SIZE] at hm
    omega

/-- C5 (amended): whenever appending a payload makes the accumulator
length reach or exceed `C = BUFFER_SIZE = 3200`, the receiver emits the
ENTIRE accumulator (possibly more than `C` bytes) as a single chunk and
clears it — it does not cut a chunk of exactly `C` bytes or retain a
remainder, and no repetition is needed; below the threshold the bytes are
only accumulated.  The concrete consequence claimed in the spec does hold:
after 25 frames of 160 bytes each, exactly one 3200-byte chunk has been
forwarded and 800 bytes remain buffered (the 160-byte frames hit the
threshold exactly). -/
theorem C5_amended_whole_buffer_emit :
    (∀ (st : SessState) (p : List Nat),
      twilioStep st (TwilioFrame.media p) =
        if BUFFER_SIZE ≤ st.inbuffer.length + p.length then
          { st with audioQueue := st.audioQueue ++ [st.inbuffer ++ p], inbuffer := [] }
        else
          { st with inbuffer := st.inbuffer ++ p })
    ∧ (runFrames initState
        (List.replicate 25 (TwilioFrame.media (List.replicate 160 (0 : Nat))))).audioQueue.map
          List.length = [3200]
    ∧ (runFrames initState
        (List.replicate 25 (TwilioFrame.media (List.replicate 160 (0 : Nat))))).inbuffer.length
          = 800 :=
  ⟨twilioStep_media, run25_audio.1, run25_audio.2⟩

/-- C2 counterexample: a session whose `start` frame carries no
customParameters (followed by a normal `stop`).  The receiver never calls
`caller_info_ready.set()` for it, and since the `await
caller_info_ready.wait()` at src/server.py line 1060 has no timeout, the
handler never proceeds — in particular it never proceeds with caller
identity `"unknown"` after a bounded timeout, contradicting the claim
that the wait is bounded. -/
theorem C2_counterexample :
    handlerProceedsPastWait [TwilioFrame.start "MZ0001" "CA0001" [], TwilioFrame.stop] = false
    ∧ (runFrames initState
        [TwilioFrame.start "MZ0001" "CA0001" [], TwilioFrame.stop]).callerPhone
      ≠ some "unknown" := by
  constructor
  · rfl
  · decide

/-- C2 (amended): the orchestrator's wait on `caller_info_ready` has no
timeout: the handler proceeds past the wait exactly when some processed
frame was a `start` frame with non-empty customParameters (the only code
that sets the event, src/server.py lines 973-979).  When no such frame
arrives the wait blocks unboundedly; there is no fallback to identity
`"unknown"`. -/
theorem C2_amended_wait_unbounded (frames : List TwilioFrame) :
    handlerProceedsPastWait frames = frames.any isStartWithParams := by
  have h := runFrames_ready frames initState
  simpa [handlerProceedsPastWait, callerInfoReadyAfter, initState] using h

/-- C10: the `start` handler leaves the caller-identity readiness event
unset when `customParameters` is absent or empty — the whole branch at
src/server.py lines 973-983 is guarded by `if custom_params:` — while
still queueing the `streamSid` (line 986); the event is set only by a
start frame with non-empty parameters, so when no frame of a session has
them, `websocket_handler` never proceeds past the wait to the
agent-connection setup. -/
theorem C10_empty_params_event_unset :
    (∀ (st : SessState) (sid csid : String),
      twilioStep st (TwilioFrame.start sid csid []) =
        { st with streamsidQueue := st.streamsidQueue ++ [sid] })
    ∧ (∀ (st : SessState) (f : TwilioFrame),
        (twilioStep st f).callerInfoReady = (st.callerInfoReady || isStartWithParams f))
    ∧ (∀ frames : List TwilioFrame,
        (∀ f ∈ frames, isStartWithParams f = false) →
          handlerProceedsPastWait frames = false) := by
  refine ⟨fun st sid csid => by simp [twilioStep], stepReady, fun frames h => ?_⟩
  have hr := runFrames_ready frames initState
  have hany : frames.any isStartWithParams = false := by
    simp only [List.any_eq_false]
    intro f hf
    simp [h f hf]
  show (runFrames initState frames).callerInfoReady = false
  rw [hr, hany]
  rfl

/-- Witness for C10 at a concrete session: a start frame without
customParameters and a media frame. -/
theorem C10_witness :
    handlerProceedsPastWait
      [TwilioFrame.start "MZ0002" "CA0002" [], TwilioFrame.media [1, 2]] = false :=
  C10_empty_params_event_unset.2.2
    [TwilioFrame.start "MZ0002" "CA0002" [], TwilioFrame.media [1, 2]] (by decide)

/-- C3: finalization is NOT idempotent.  Failing input: a session whose
customParameters carry `callsid = "CA0123456789"` (any call sid longer
than 8 characters) that ends with a processed `stop` frame and then the
normal handler teardown.  The `stop` branch stores the LAST 8 characters
of the call sid as the inactive-entry id (src/server.py line 1017), but
the post-`gather` dedup check compares entry ids against the FULL call sid
(line 1237), never matches, and finalization (inactive append +
`call_ended` broadcast) runs a second time. -/
theorem C3_double_finalization :
    (runHandler [TwilioFrame.start "MZ0001" "CAWS0001"
        [("caller", "+61400000001"), ("callsid", "CA0123456789")],
      TwilioFrame.stop]).endActions.count EndAction.broadcastCallEnded = 2
    ∧ (runHandler [TwilioFrame.start "MZ0001" "CAWS0001"
        [("caller", "+61400000001"), ("callsid", "CA0123456789")],
      TwilioFrame.stop]).inactiveIds = ["23456789", "23456789"]
    ∧ last8 "CA0123456789" ≠ "CA0123456789" := by
  refine ⟨?_, ?_, ?_⟩ <;> decide

/-- C4: the session-end code paths of `websocket_handler` (the `stop`
branch, src/server.py lines 999-1041, and the post-`gather` fallback,
lines 1234-1267) never call `db.end_session` — there is no call site of
`end_session` in src/server.py — so no terminal write (end time, duration,
summary) is requested from the store when a session ends, even though
`end_session` itself (src/database.py lines 175-212) would set the end
time and compute the duration exactly as the claim describes. -/
theorem C4_no_terminal_write :
    EndAction.dbEndSession ∉ (runHandler [TwilioFrame.start "MZ0001" "CAWS0002"
        [("caller", "+61400000002"), ("callsid", "CA0000002222")],
      TwilioFrame.stop]).endActions
    ∧ (∀ (now start_time : Int) (msgs : List (String × String × Int))
          (summary : Option String),
        (end_session now start_time msgs summary).end_time_set = true
        ∧ (end_session now start_time msgs summary).duration_seconds = now - start_time) := by
  exact ⟨by decide, fun _ _ _ _ => ⟨rfl, rfl⟩⟩

/-- C6: once `sts_receiver` has the session's stream id, a
`UserStartedSpeaking` message produces exactly one `Clear` frame addressed
to that stream id (src/server.py lines 1203-1209), and in the output
stream that frame precedes every playback `Media` frame produced from
agent messages received after it — the loop is sequential, so outputs
follow message order.  The hypothesis states that the loop reached the
`UserStartedSpeaking` message (no earlier message aborted it). -/
theorem C6_barge_in_clear_before_later_media (sid : String) (pre post : List AgentMsg)
    (h : (stsRun sid pre).2 = false) :
    stsStep sid (AgentMsg.text AgentJson.userStartedSpeaking)
        = some [TwilioOut.clear sid]
    ∧ stsRun sid (pre ++ AgentMsg.text AgentJson.userStartedSpeaking :: post)
      = ((stsRun sid pre).1 ++ TwilioOut.clear sid :: (stsRun sid post).1,
          (stsRun sid post).2) :=
  ⟨rfl, stsRun_decomp sid pre post h⟩

/-- Witness for C6 at a concrete session: audio before and after the
barge-in message. -/
theorem C6_witness :
    (stsRun "MZ0003" [AgentMsg.binary [7]]).2 = false
    ∧ (stsStep "MZ0003" (AgentMsg.text AgentJson.userStartedSpeaking)
        = some [TwilioOut.clear "MZ0003"]
      ∧ stsRun "MZ0003" ([AgentMsg.binary [7]]
            ++ AgentMsg.text AgentJson.userStartedSpeaking :: [AgentMsg.binary [9]])
        = ((stsRun "MZ0003" [AgentMsg.binary [7]]).1
            ++ TwilioOut.clear "MZ0003" :: (stsRun "MZ0003" [AgentMsg.binary [9]]).1,
            (stsRun "MZ0003" [AgentMsg.binary [9]]).2)) :=
  ⟨by decide,
    C6_barge_in_clear_before_later_media "MZ0003" [AgentMsg.binary [7]]
      [AgentMsg.binary [9]] (by decide)⟩

/-- C7 counterexample: an agent-endpoint textual message that is valid
JSON but lacks the `type` discriminator.  `decoded["type"]` at
src/server.py line 1203 raises `KeyError`, which the inner
`except json.JSONDecodeError` does not catch; the outer `except` at line
1223 ends the loop, so the next valid frame (a binary audio frame that
alone would yield a `Media`) is NOT processed — the claim that one bad
frame is skipped and the next valid frame is still processed is false for
this frame class. -/
theorem C7_counterexample :
    stsRun "MZ0004" [AgentMsg.text AgentJson.missingType, AgentMsg.binary [1]] = ([], true)
    ∧ stsRun "MZ0004" [AgentMsg.binary [1]] = ([TwilioOut.media "MZ0004" [1]], false) := by
  constructor <;> decide

/-- C7 (amended): a telephony frame that is not valid JSON, or that fails
inside its handler, is skipped and the telephony loop continues (the two
`except` clauses at src/server.py lines 1044-1047 cover every frame), and
an agent message that is not valid JSON is likewise skipped (line 1210);
but an agent textual message that is valid JSON without a usable `type`
discriminator raises an uncaught error that terminates the agent-receive
loop, so only the telephony socket enjoys the claimed per-frame
robustness. -/
theorem C7_amended_skip_behavior :
    (∀ st : SessState, twilioStep st TwilioFrame.malformedText = st
      ∧ twilioStep st TwilioFrame.otherEvent = st)
    ∧ (∀ (sid : String) (ms : List AgentMsg),
        stsRun sid (AgentMsg.text AgentJson.invalidJson :: ms) = stsRun sid ms)
    ∧ (∀ sid : String, stsStep sid (AgentMsg.text AgentJson.missingType) = none)
    ∧ (∀ (sid : String) (ms : List AgentMsg),
        stsRun sid (AgentMsg.text AgentJson.missingType :: ms) = ([], true)) := by
  refine ⟨fun st => ⟨rfl, rfl⟩, fun sid ms => ?_, fun sid => rfl, fun sid ms => rfl⟩
  simp [stsRun, stsStep]

/-- C8 counterexample: with `DEEPGRAM_API_KEY` unset, `main`
(src/server.py lines 1366-1370) only prints a warning and still starts
the server — startup does not fail, contradicting the claim. -/
theorem C8_counterexample :
    (mainStartup none).serverStarted = true
    ∧ (mainStartup none).warnedMissingKey = true := by
  exact ⟨rfl, rfl⟩

/-- C8 (amended): a missing `DEEPGRAM_API_KEY` is not fatal at startup —
`main` warns and starts the server regardless — and instead every call
fails at agent-connection time: `sts_connect` (src/server.py lines 35-45)
raises `ValueError` when the key is unset and connects with subprotocols
`["token", key]` otherwise. -/
theorem C8_amended_warn_and_fail_per_call :
    (∀ apiKey : Option String, (mainStartup apiKey).serverStarted = true)
    ∧ sts_connect none = Except.error "DEEPGRAM_API_KEY environment variable is not set"
    ∧ (∀ key : String, sts_connect (some key) =
        Except.ok ("wss://agent.deepgram.com/v1/agent/converse", ["token", key])) :=
  ⟨fun _ => rfl, rfl, fun _ => rfl⟩

theorem exchangeOf_normalize_ok (v : PyVal) (h : goodItem v = true) :
    ∃ r, exchangeOf (normalizeItem v) = Except.ok r := by
  cases v with
  | pydict fs =>
      simp only [goodItem] at h
      simp only [normalizeItem, exchangeOf]
      cases hc : fs.lookup "content" with
      | none =>
          simp only [hc, Option.getD_none]
          repeat' split
          all_goals exact ⟨_, rfl⟩
      | some cv =>
          rw [hc] at h
          simp only [hc, Option.getD_some]
          cases cv with
          | pystr s =>
              repeat' split
              all_goals exact ⟨_, rfl⟩
          | pyint n => simp at h
          | pybool b => simp at h
          | pynone => simp at h
          | pylist xs => simp at h
          | pydict fs2 => simp at h
  | pystr s =>
      simp only [normalizeItem, exchangeOf, List.lookup]
      norm_num
      repeat' split
      all_goals exact ⟨_, rfl⟩
  | pyint n =>
      simp only [normalizeItem, exchangeOf, List.lookup]
      norm_num
      repeat' split
      all_goals exact ⟨_, rfl⟩
  | pybool b =>
      simp only [normalizeItem, exchangeOf, List.lookup]
      norm_num
      repeat' split
      all_goals exact ⟨_, rfl⟩
  | pynone =>
      simp only [normalizeItem, exchangeOf, List.lookup]
      norm_num
      repeat' split
      all_goals exact ⟨_, rfl⟩
  | pylist xs =>
      simp only [normalizeItem, exchangeOf, List.lookup]
      norm_num
      repeat' split
      all_goals exact ⟨_, rfl⟩

theorem collectExchanges_ok (items : List PyVal) (h : items.all goodItem = true) :
    ∃ rs, collectExchanges (items.map normalizeItem) = Except.ok rs := by
  induction items with
  | nil => exact ⟨[], rfl⟩
  | cons v vs ih =>
      simp only [List.all_cons, Bool.and_eq_true] at h
      obtain ⟨r, hr⟩ := exchangeOf_normalize_ok v h.1
      obtain ⟨rs, hrs⟩ := ih h.2
      cases r with
      | some s => exact ⟨s :: rs, by simp [collectExchanges, hr, hrs]⟩
      | none => exact ⟨rs, by simp [collectExchanges, hr, hrs]⟩

theorem pyIterate_good (v : PyVal) (h : goodIterable v = true) :
    ∃ items, pyIterate v = Except.ok items ∧ items.all goodItem = true := by
  cases v with
  | pylist xs => exact ⟨xs, rfl, by simpa [goodIterable] using h⟩
  | pydict fs =>
      refine ⟨_, rfl, ?_⟩
      simp only [List.all_eq_true]
      intro x hx
      simp only [List.mem_map] at hx
      obtain ⟨kv, _, rfl⟩ := hx
      rfl
  | pystr s =>
      refine ⟨_, rfl, ?_⟩
      simp only [List.all_eq_true]
      intro x hx
      simp only [List.mem_map] at hx
      obtain ⟨c, _, rfl⟩ := hx
      rfl
  | pyint n => simp [goodIterable] at h
  | pybool b => simp [goodIterable] at h
  | pynone => simp [goodIterable] at h

theorem step1_good (loads : String → Option PyVal) (v : PyVal)
    (h : goodTranscript loads v = true) :
    goodIterable (transcriptStep1 loads v) = true := by
  cases v with
  | pystr s =>
      simp only [goodTranscript] at h
      simp only [transcriptStep1]
      cases hl : loads s with
      | none => simp [goodIterable, goodItem, List.lookup]
      | some d =>
          rw [hl] at h
          exact h
  | pyint n => exact h
  | pybool b => exact h
  | pynone => exact h
  | pylist xs => exact h
  | pydict fs => exact h

theorem processSession_good (loads : String → Option PyVal)
    (s : List (String × PyVal)) (h : goodSession loads s = true) :
    ∃ r, processSession loads s = Except.ok r := by
  obtain ⟨items, hit, hall⟩ := pyIterate_good _ (step1_good loads _ h)
  obtain ⟨rs, hrs⟩ := collectExchanges_ok items hall
  by_cases he : (items.map normalizeItem).isEmpty
  · exact ⟨none, by simp [processSession, hit, he]⟩
  · by_cases hre : rs.isEmpty
    · exact ⟨none, by simp [processSession, hit, he, hrs, hre]⟩
    · exact ⟨some ("Session "
          ++ pyStr ((s.lookup "session_number").getD (PyVal.pystr "Unknown")) ++ ": "
          ++ String.intercalate " | " (lastN 6 rs)),
        by simp [processSession, hit, he, hrs, hre]⟩

theorem buildParts_ok (loads : String → Option PyVal)
    (hs : List (List (String × PyVal)))
    (h : ∀ s ∈ hs, goodSession loads s = true) :
    ∃ ps, buildParts loads hs = Except.ok ps := by
  induction hs with
  | nil => exact ⟨[], rfl⟩
  | cons s rest ih =>
      obtain ⟨r, hr⟩ := processSession_good loads s (h s (by simp))
      obtain ⟨ps, hps⟩ := ih fun x hx => h x (by simp [hx])
      cases r with
      | some p => exact ⟨p :: ps, by simp [buildParts, hr, hps]⟩
      | none => exact ⟨ps, by simp [buildParts, hr, hps]⟩

/-- C9 counterexample: a stored session whose `full_transcript` is null —
a value its own schema allows (`full_transcript JSONB` is nullable, and
src/database.py line 225 even writes NULL there).  `session_data.get`
returns `None`, the string check at src/server.py line 131 does not fire,
and `for item in transcript` at line 146 raises an uncaught `TypeError`:
digest generation raises rather than degrading, contradicting the
never-raises claim. -/
theorem C9_counterexample :
    format_actual_conversation_context (fun _ => none)
        [[("session_number", PyVal.pyint 1), ("full_transcript", PyVal.pynone)]]
      = Except.error "TypeError: object is not iterable"
    ∧ exceptOk (format_actual_conversation_context (fun _ => none)
        [[("session_number", PyVal.pyint 1), ("full_transcript", PyVal.pynone)]]) = false := by
  exact ⟨rfl, rfl⟩

/-- C9 (amended): digest generation does not raise provided every stored
transcript is Python-iterable after the string-decoding step and every
dict-shaped turn carries a string (or absent) `content` value — i.e. each
transcript is a list of such turns, a dict, a string that fails to decode
(degrading to a single opaque turn) or a string decoding to such a value.
Outside this class the function raises (`TypeError` on a null, numeric or
boolean transcript; `AttributeError` on a non-string `content`), so the
unconditional never-raises guarantee of the claim does not hold. -/
theorem C9_amended_no_raise_on_good_history (loads : String → Option PyVal)
    (sessions : List (List (String × PyVal)))
    (h : ∀ s ∈ sessions, goodSession loads s = true) :
    exceptOk (format_actual_conversation_context loads sessions) = true := by
  obtain ⟨ps, hps⟩ := buildParts_ok loads (lastN 3 sessions)
    (fun s hs => h s (List.drop_subset _ _ hs))
  simp only [format_actual_conversation_context, hps]
  split <;> rfl

/-- Witness for C9 at a concrete one-session history with a structured
transcript. -/
theorem C9_witness :
    (∀ s ∈ [[("session_number", PyVal.pyint 2),
        ("full_transcript", PyVal.pylist [PyVal.pydict
          [("content", PyVal.pystr "I moved to Brisbane last month for work"),
           ("speaker", PyVal.pystr "user")]])]],
      goodSession (fun _ => none) s = true)
    ∧ exceptOk (format_actual_conversation_context (fun _ => none)
        [[("session_number", PyVal.pyint 2),
          ("full_transcript", PyVal.pylist [PyVal.pydict
            [("content", PyVal.pystr "I moved to Brisbane last month for work"),
             ("speaker", PyVal.pystr "user")]])]]) = true :=
  ⟨by decide, C9_amended_no_raise_on_good_history _ _ (by decide)⟩

end Bridge
